import Mathlib

/-!
Verification of the snd-rane-sl3 USB audio driver against its
natural-language specification.  The driver's data model and operations
are shallowly embedded as executable Lean definitions translated from the
C sources (sl3.h, sl3_pcm.c, sl3_hid.c, sl3_urb.c, sl3_control.c,
sl3_driver.c); theorems below settle the spec's claims about them.
-/

set_option maxRecDepth 10000

namespace SL3

/-! ## Constants from sl3.h -/

def SL3_VENDOR_ID : Nat := 0x1CC5
def SL3_PRODUCT_ID : Nat := 0x0001

def SL3_NUM_CHANNELS : Nat := 6
def SL3_BYTES_PER_SAMPLE : Nat := 3
def SL3_BYTES_PER_FRAME : Nat := 18
def SL3_MAX_PACKET_SIZE : Nat := 126

def SL3_NUM_URBS : Nat := 16
def SL3_ISO_PACKETS : Nat := 8
def SL3_URB_MAX_RETRIES : Nat := 3

def SL3_HID_CMD_INIT : Nat := 0x03
def SL3_HID_CMD_SAMPLE_RATE : Nat := 0x31
def SL3_HID_CMD_ROUTING : Nat := 0x33
def SL3_HID_CMD_QUERY_PHONO : Nat := 0x32
def SL3_HID_CMD_STATUS : Nat := 0x36

def SL3_HID_NOTIFY_OVERLOAD : Nat := 0x34
def SL3_HID_NOTIFY_PHONO : Nat := 0x38
def SL3_HID_NOTIFY_USB_PORT : Nat := 0x39

def SL3_PAIR_DECK_A : Nat := 0x08
def SL3_PAIR_DECK_B : Nat := 0x0E
def SL3_PAIR_DECK_C : Nat := 0x14

def SL3_ROUTE_ANALOG : Nat := 0x00
def SL3_ROUTE_USB : Nat := 0x01

def SL3_HID_REPORT_SIZE : Nat := 64

/-! ## Packet sizing (sl3_urb.c)

Constants from the top of sl3_urb.c. -/

def SL3_SAMPLES_48K : Nat := 6
def SL3_SAMPLES_44K_BASE : Nat := 5
def SL3_FRAC_NUM : Nat := 4100
def SL3_FRAC_DENOM : Nat := 8000

/-- Function `sl3_next_packet_samples` from sl3_urb.c.  The device state it touches
is `current_rate` and `sample_accumulator`; it returns the sample count
for the next ISO packet together with the updated accumulator. -/
def sl3_next_packet_samples (current_rate sample_accumulator : Nat) :
    Nat × Nat :=
  if current_rate = 48000 then
    (SL3_SAMPLES_48K, sample_accumulator)
  else
    let samples := SL3_SAMPLES_44K_BASE
    let acc := sample_accumulator + SL3_FRAC_NUM
    if SL3_FRAC_DENOM ≤ acc then
      (samples + 1, acc - SL3_FRAC_DENOM)
    else
      (samples, acc)

/-- Iterated calls to `sl3_next_packet_samples` starting from an
accumulator reset to zero: `sl3_run_next_samples rate k` is the pair
(sum of the first `k` return values, accumulator after the `k`-th call). -/
def sl3_run_next_samples (rate : Nat) : Nat → Nat × Nat
  | 0 => (0, 0)
  | k + 1 =>
    let p := sl3_run_next_samples rate k
    let q := sl3_next_packet_samples rate p.2
    (p.1 + q.1, q.2)

/-- Since `44100 = 5 * 8000 + 4100`, the quotient splits off the whole part. -/
theorem sl3_div_bridge (k : Nat) :
    44100 * k / 8000 = 5 * k + 4100 * k / 8000 := by
  have h : 44100 * k = 8000 * (5 * k) + 4100 * k := by ring
  rw [h, Nat.mul_add_div (by norm_num)]

/-- Accumulator/sum invariant for the 44.1 kHz pattern: after `k` calls
from a reset accumulator, the sum of returned sample counts is
`44100 * k / 8000` and the accumulator is `4100 * k % 8000`. -/
theorem sl3_run_next_samples_inv (k : Nat) :
    (sl3_run_next_samples 44100 k).1 = 44100 * k / 8000 ∧
    (sl3_run_next_samples 44100 k).2 = 4100 * k % 8000 := by
  induction k with
  | zero => simp [sl3_run_next_samples]
  | succ n ih =>
    obtain ⟨h1, h2⟩ := ih
    simp only [sl3_run_next_samples, sl3_next_packet_samples,
      SL3_SAMPLES_44K_BASE, SL3_FRAC_NUM, SL3_FRAC_DENOM]
    have hmod : 4100 * n % 8000 < 8000 := Nat.mod_lt _ (by norm_num)
    rw [sl3_div_bridge n] at h1
    by_cases hc : 8000 ≤ 4100 * n % 8000 + 4100
    · simp only [if_neg (by norm_num : ¬(44100 = 48000)), h1, h2, if_pos hc]
      rw [sl3_div_bridge (n + 1)]
      constructor
      · omega
      · omega
    · simp only [if_neg (by norm_num : ¬(44100 = 48000)), h1, h2, if_neg hc]
      rw [sl3_div_bridge (n + 1)]
      constructor
      · omega
      · omega

/-! ## Period reporting (completion callbacks, sl3_urb.c) -/

/-- Period-reporting state of one stream direction: the frame count since
the last period notification (`transfer_done`), the running total of
period boundaries crossed (`while`-loop subtractions), and the number of
`snd_pcm_period_elapsed` invocations. -/
structure PeriodState where
  transfer_done : Nat
  boundaries : Nat
  elapsed_calls : Nat
deriving DecidableEq

/-- The `while (stream->transfer_done >= period_size)` loop shared by
`sl3_playback_complete` and `sl3_capture_complete`: repeatedly subtract
`period_size`, counting the subtractions.  (The guard also requires
`0 < period_size`; ALSA guarantees a positive period size, and without
it the C loop would not terminate.) -/
def sl3_period_loop (period_size : Nat) (td : Nat) : Nat × Nat :=
  if h : 0 < period_size ∧ period_size ≤ td then
    let r := sl3_period_loop period_size (td - period_size)
    (r.1, r.2 + 1)
  else
    (td, 0)
termination_by td
decreasing_by omega

/-- The period loop computes remainder and quotient by `period_size`. -/
theorem sl3_period_loop_eq (ps : Nat) (h : 0 < ps) :
    ∀ td, sl3_period_loop ps td = (td % ps, td / ps) := by
  intro td
  induction td using Nat.strong_induction_on with
  | _ td ih =>
    rw [sl3_period_loop]
    by_cases hle : ps ≤ td
    · rw [dif_pos ⟨h, hle⟩, ih (td - ps) (by omega)]
      rw [Nat.mod_eq_sub_mod hle, Nat.div_eq_sub_div h hle]
    · rw [dif_neg (by omega)]
      rw [Nat.mod_eq_of_lt (by omega), Nat.div_eq_of_lt (by omega)]

/-- One URB completion, period-reporting view: the packet walk advanced
`adv` frames (`transfer_done += samples` per packet), then the period
loop runs, and after the stream lock is dropped
`snd_pcm_period_elapsed` is called exactly once iff `do_elapsed` was
set, i.e. iff at least one boundary was crossed. -/
def sl3_completion_periods (ps adv : Nat) (s : PeriodState) : PeriodState :=
  let r := sl3_period_loop ps (s.transfer_done + adv)
  { transfer_done := r.1,
    boundaries := s.boundaries + r.2,
    elapsed_calls := s.elapsed_calls + (if 0 < r.2 then 1 else 0) }

/-- A sequence of URB completions on one stream, each advancing the given
number of frames. -/
def sl3_run_completions (ps : Nat) : List Nat → PeriodState → PeriodState
  | [], s => s
  | adv :: rest, s => sl3_run_completions ps rest (sl3_completion_periods ps adv s)

/-- The stream state right after `prepare`: `transfer_done = 0` and no
events emitted yet. -/
def sl3_period_init : PeriodState := ⟨0, 0, 0⟩

/-- Splitting a quotient along a partial sum. -/
theorem sl3_div_accum (ps x y : Nat) (h : 0 < ps) :
    x / ps + (x % ps + y) / ps = (x + y) / ps := by
  conv_rhs => rw [← Nat.div_add_mod x ps]
  rw [Nat.add_assoc, Nat.mul_add_div h]

/-- Invariant of a completion sequence started with `transfer_done`
below the period size (as after `prepare`): `transfer_done` stays the
total advance modulo `period_size`, the boundary count grows by its
quotient, and the elapsed-call count grows by at most one per
completion. -/
theorem sl3_run_completions_inv (ps : Nat) (h : 0 < ps) :
    ∀ (advs : List Nat) (s : PeriodState), s.transfer_done < ps →
    (sl3_run_completions ps advs s).transfer_done =
      (s.transfer_done + advs.sum) % ps ∧
    (sl3_run_completions ps advs s).boundaries =
      s.boundaries + (s.transfer_done + advs.sum) / ps ∧
    (sl3_run_completions ps advs s).elapsed_calls ≤
      s.elapsed_calls + advs.length := by
  intro advs
  induction advs with
  | nil =>
    intro s hT
    simp [sl3_run_completions, Nat.mod_eq_of_lt hT, Nat.div_eq_of_lt hT]
  | cons adv rest ih =>
    intro s hT
    simp only [sl3_run_completions, List.sum_cons, List.length_cons]
    have hloop := sl3_period_loop_eq ps h (s.transfer_done + adv)
    have hT1 : (sl3_completion_periods ps adv s).transfer_done < ps := by
      simp only [sl3_completion_periods, hloop]
      exact Nat.mod_lt _ h
    obtain ⟨h1, h2, h3⟩ := ih (sl3_completion_periods ps adv s) hT1
    refine ⟨?_, ?_, ?_⟩
    · rw [h1]
      simp only [sl3_completion_periods, hloop]
      rw [Nat.mod_add_mod]
      ring_nf
    · rw [h2]
      simp only [sl3_completion_periods, hloop]
      have ha := sl3_div_accum ps (s.transfer_done + adv) rest.sum h
      have hc : (s.transfer_done + (adv + rest.sum)) =
          (s.transfer_done + adv) + rest.sum := by ring
      rw [hc]
      omega
    · refine le_trans h3 ?_
      simp only [sl3_completion_periods]
      split <;> omega

/-! ## Claim theorems C2, C3 -/

/-- Claim C3: at `current_rate = 44100`, starting from a reset
accumulator, the sum of the first `N + 1` values returned by
`sl3_next_packet_samples` is `floor ((N + 1) * 44100 / 8000)`; every
call returns 5 or 6; and the sum of 8000 calls is exactly 44100. -/
theorem sl3_rate_pattern (N : Nat) :
    (sl3_run_next_samples 44100 (N + 1)).1 = (N + 1) * 44100 / 8000 ∧
    (∀ acc : Nat, (sl3_next_packet_samples 44100 acc).1 = 5 ∨
      (sl3_next_packet_samples 44100 acc).1 = 6) ∧
    (sl3_run_next_samples 44100 8000).1 = 44100 := by
  refine ⟨?_, ?_, ?_⟩
  · rw [(sl3_run_next_samples_inv (N + 1)).1, Nat.mul_comm]
  · intro acc
    simp only [sl3_next_packet_samples, SL3_SAMPLES_44K_BASE, SL3_FRAC_NUM,
      SL3_FRAC_DENOM]
    rw [if_neg (by norm_num : ¬(44100 = 48000))]
    split
    · right; rfl
    · left; rfl
  · rw [(sl3_run_next_samples_inv 8000).1]

/-- Claim C2 counterexample: the number of `snd_pcm_period_elapsed`
invocations is not `floor (total_frames_advanced / period_size)`.  With
`period_size = 1` frame (allowed: `period_bytes_min` is one 18-byte
frame) a single completion advancing 48 frames (8 packets of 6 at
48 kHz) crosses 48 boundaries but invokes the callback once. -/
theorem sl3_period_calls_counterexample :
    (sl3_run_completions 1 [48] sl3_period_init).elapsed_calls = 1 ∧
    List.sum [48] / 1 = 48 ∧ (1 : Nat) ≠ 48 := by
  have hl := sl3_period_loop_eq 1 (by norm_num) 48
  refine ⟨?_, by norm_num, by norm_num⟩
  simp [sl3_run_completions, sl3_completion_periods, sl3_period_init, hl]

/-- Claim C2 (amended): over any completion sequence from a prepared
stream, the total number of period boundaries marked (subtractions of
`period_size` from `transfer_done`) equals
`floor (total_frames_advanced / period_size)`, `transfer_done` is the
remainder, and `snd_pcm_period_elapsed` runs at most once per
completion (only when a boundary was crossed in it). -/
theorem sl3_period_reporting (ps : Nat) (advs : List Nat) (h : 0 < ps) :
    (sl3_run_completions ps advs sl3_period_init).boundaries =
      advs.sum / ps ∧
    (sl3_run_completions ps advs sl3_period_init).transfer_done =
      advs.sum % ps ∧
    (sl3_run_completions ps advs sl3_period_init).elapsed_calls ≤
      advs.length := by
  obtain ⟨h1, h2, h3⟩ :=
    sl3_run_completions_inv ps h advs sl3_period_init h
  exact ⟨by simpa [sl3_period_init] using h2,
         by simpa [sl3_period_init] using h1,
         by simpa [sl3_period_init] using h3⟩

/-- Witness for C2: with `period_size = 441` and four completions
advancing 441, 300, 141 and 100 frames, 2 boundaries are marked
(`floor (982 / 441) = 2`), `transfer_done` ends at 100, and the
callback ran at most 4 times. -/
theorem sl3_period_reporting_witness :
    (sl3_run_completions 441 [441, 300, 141, 100] sl3_period_init).boundaries
      = 2 ∧
    (sl3_run_completions 441 [441, 300, 141, 100]
      sl3_period_init).transfer_done = 100 ∧
    (sl3_run_completions 441 [441, 300, 141, 100]
      sl3_period_init).elapsed_calls ≤ 4 := by
  obtain ⟨h1, h2, h3⟩ :=
    sl3_period_reporting 441 [441, 300, 141, 100] (by norm_num)
  refine ⟨?_, ?_, ?_⟩
  · rw [h1]; norm_num
  · rw [h2]; norm_num
  · simpa using h3

/-! ## Playback URB fill (sl3_fill_playback_urb, sl3_urb.c) -/

/-- A host PCM runtime attached to the playback substream with a DMA
area: the ring bytes and the ring size in frames.  `none` models
`!runtime || !runtime->dma_area`. -/
structure Runtime where
  dma_area : List Nat
  buffer_size : Nat
deriving DecidableEq

/-- The two-segment wraparound `memcpy` of `sl3_fill_playback_urb`:
read `bytes` bytes of the ring `dma` starting at `hwptr_bytes`,
wrapping at `buf_bytes`. -/
def sl3_ring_read (dma : List Nat) (buf_bytes hwptr_bytes bytes : Nat) :
    List Nat :=
  if hwptr_bytes + bytes ≤ buf_bytes then
    (dma.drop hwptr_bytes).take bytes
  else
    let c1 := buf_bytes - hwptr_bytes
    (dma.drop hwptr_bytes).take c1 ++ dma.take (bytes - c1)

/-- Result of the playback fill: per-packet frame counts, per-packet
byte contents, and the updated `hwptr`, `transfer_done`,
`sample_accumulator`, plus the local `feedback_total` left over. -/
structure FillResult where
  samples : List Nat
  packets : List (List Nat)
  hwptr : Nat
  transfer_done : Nat
  sample_accumulator : Nat
  feedback_left : Nat
deriving DecidableEq

/-- The sizing branch of the packet loop in `sl3_fill_playback_urb`:
with `remaining` packets left, feedback snapshot `fb` and accumulator
`acc`, returns (samples for this packet, new accumulator, new feedback
snapshot). -/
def sl3_packet_take (rate : Nat) (capture_running : Bool)
    (remaining fb acc : Nat) : Nat × Nat × Nat :=
  if capture_running = true ∧ 0 < fb then
    let s0 := (fb + remaining - 1) / remaining
    let s := if SL3_MAX_PACKET_SIZE / SL3_BYTES_PER_FRAME < s0 then
        SL3_MAX_PACKET_SIZE / SL3_BYTES_PER_FRAME
      else s0
    (s, acc, fb - s)
  else
    let p := sl3_next_packet_samples rate acc
    (p.1, p.2, fb)

/-- The packet loop of `sl3_fill_playback_urb` (sl3_urb.c).  `rem` is
the number of packets still to fill (the code iterates `i = 0..7` with
`remaining = SL3_ISO_PACKETS - i`), `fb` the snapshot of
`feedback_samples`.  Packet sizing follows `sl3_packet_take`.  With a
runtime attached the packet bytes come from the ring at `hwptr` and
`hwptr`/`transfer_done` advance; otherwise (`!runtime ||
!runtime->dma_area`) the packet is zeroed and they do not. -/
def sl3_fill_playback_urb (rate : Nat) (capture_running : Bool)
    (rt : Option Runtime) :
    Nat → Nat → Nat → Nat → Nat → FillResult
  | 0, fb, acc, hwptr, td => ⟨[], [], hwptr, td, acc, fb⟩
  | rem + 1, fb, acc, hwptr, td =>
    let step := sl3_packet_take rate capture_running (rem + 1) fb acc
    let samples := step.1
    let bytes := samples * SL3_BYTES_PER_FRAME
    match rt with
    | some r =>
      let buf_bytes := r.buffer_size * SL3_BYTES_PER_FRAME
      let hw := hwptr % r.buffer_size
      let pkt := sl3_ring_read r.dma_area buf_bytes
          (hw * SL3_BYTES_PER_FRAME) bytes
      let rest := sl3_fill_playback_urb rate capture_running (some r) rem
          step.2.2 step.2.1 (hwptr + samples) (td + samples)
      ⟨samples :: rest.samples, pkt :: rest.packets, rest.hwptr,
       rest.transfer_done, rest.sample_accumulator, rest.feedback_left⟩
    | none =>
      let rest := sl3_fill_playback_urb rate capture_running none rem
          step.2.2 step.2.1 hwptr td
      ⟨samples :: rest.samples, List.replicate bytes 0 :: rest.packets,
       rest.hwptr, rest.transfer_done, rest.sample_accumulator,
       rest.feedback_left⟩

/-- Step arithmetic of the feedback distribution, checked over the
finite range the 8-packet loop can reach: with `rem + 1` packets left
and `rem + 1 ≤ fb ≤ 7 * (rem + 1)`, the ceiling share is at most 7 (the
clamp never bites), at most `fb`, and the leftover stays in range for
the remaining `rem` packets. -/
theorem sl3_feedback_step (rem fb : Nat) (h8 : rem < 8)
    (hlo : rem + 1 ≤ fb) (hhi : fb ≤ 7 * (rem + 1)) :
    (fb + (rem + 1) - 1) / (rem + 1) ≤ 7 ∧
    (fb + (rem + 1) - 1) / (rem + 1) ≤ fb ∧
    rem ≤ fb - (fb + (rem + 1) - 1) / (rem + 1) ∧
    fb - (fb + (rem + 1) - 1) / (rem + 1) ≤ 7 * rem := by
  interval_cases rem <;> omega

/-- When capture is running, feedback remains, and the ceiling share is
within the 7-frame clamp, `sl3_packet_take` emits exactly the ceiling
share and leaves the accumulator alone. -/
theorem sl3_packet_take_feedback (rate remaining fb acc : Nat)
    (hpos : 0 < fb) (hle : (fb + remaining - 1) / remaining ≤ 7) :
    sl3_packet_take rate true remaining fb acc =
      ((fb + remaining - 1) / remaining, acc,
       fb - (fb + remaining - 1) / remaining) := by
  have hmax : SL3_MAX_PACKET_SIZE / SL3_BYTES_PER_FRAME = 7 := by
    norm_num [SL3_MAX_PACKET_SIZE, SL3_BYTES_PER_FRAME]
  simp only [sl3_packet_take, hmax]
  rw [if_pos ⟨trivial, hpos⟩, if_neg (by omega)]

/-- Invariant of the fill loop under feedback: if `rem ≤ fb ≤ 7 * rem`
(and `rem ≤ 8`), every one of the `rem` packets takes the feedback
branch, so the emitted frame counts sum to exactly `fb`, the fractional
accumulator is untouched, and the feedback snapshot is fully consumed. -/
theorem sl3_feedback_fill_inv (rate : Nat) (rt : Option Runtime) :
    ∀ rem, rem ≤ 8 → ∀ fb acc hwptr td, rem ≤ fb → fb ≤ 7 * rem →
    (sl3_fill_playback_urb rate true rt rem fb acc hwptr td).samples.sum
      = fb ∧
    (sl3_fill_playback_urb rate true rt rem fb acc hwptr
      td).sample_accumulator = acc ∧
    (sl3_fill_playback_urb rate true rt rem fb acc hwptr td).feedback_left
      = 0 := by
  intro rem
  induction rem with
  | zero =>
    intro _ fb acc hwptr td hlo hhi
    have hfb : fb = 0 := by omega
    subst hfb
    cases rt <;> simp [sl3_fill_playback_urb]
  | succ n ih =>
    intro h8 fb acc hwptr td hlo hhi
    have hpos : 0 < fb := by omega
    obtain ⟨c1, c2, c3, c4⟩ := sl3_feedback_step n fb (by omega) hlo hhi
    have htake := sl3_packet_take_feedback rate (n + 1) fb acc hpos c1
    cases rt with
    | none =>
      obtain ⟨ih1, ih2, ih3⟩ := ih (by omega)
        (fb - (fb + (n + 1) - 1) / (n + 1)) acc hwptr td c3 c4
      simp only [sl3_fill_playback_urb, htake, List.sum_cons]
      exact ⟨by rw [ih1]; omega, ih2, ih3⟩
    | some r =>
      obtain ⟨ih1, ih2, ih3⟩ := ih (by omega)
        (fb - (fb + (n + 1) - 1) / (n + 1)) acc
        (hwptr + (fb + (n + 1) - 1) / (n + 1))
        (td + (fb + (n + 1) - 1) / (n + 1)) c3 c4
      simp only [sl3_fill_playback_urb, htake, List.sum_cons]
      exact ⟨by rw [ih1]; omega, ih2, ih3⟩

/-- Claim C4 counterexample: with capture running, `F = 3` (so
`0 < F ≤ 56`) and the accumulator at 0, the 8 packet sizes do NOT sum
to `F` and the fractional accumulator IS consumed: the feedback is
exhausted after three 1-frame packets, and the remaining five packets
fall back to `sl3_next_packet_samples` (sizes 1,1,1,5,6,5,6,5, sum 30,
accumulator 4500). -/
theorem sl3_feedback_small_counterexample :
    (sl3_fill_playback_urb 44100 true none SL3_ISO_PACKETS 3 0 0 0).samples
      = [1, 1, 1, 5, 6, 5, 6, 5] ∧
    (sl3_fill_playback_urb 44100 true none SL3_ISO_PACKETS 3 0 0
      0).samples.sum = 30 ∧
    (sl3_fill_playback_urb 44100 true none SL3_ISO_PACKETS 3 0 0
      0).sample_accumulator = 4500 ∧
    (30 : Nat) ≠ 3 ∧ (4500 : Nat) ≠ 0 := by
  decide

/-- Claim C4 (amended): when capture is running and the published
feedback count `F` satisfies `8 ≤ F ≤ 56`, the next playback URB fill
sizes all 8 packets from the feedback by ceiling-division over the
remaining packets (the 7-frame clamp never truncates), the packet sizes
sum to exactly `F`, and the 44.1 kHz fractional accumulator is not
consumed.  For `0 < F < 8` the feedback-driven packets still sum to `F`
but the later packets fall back to the accumulator. -/
theorem sl3_feedback_distribution (rate : Nat) (rt : Option Runtime)
    (F acc hwptr td : Nat) (hlo : 8 ≤ F) (hhi : F ≤ 56) :
    (sl3_fill_playback_urb rate true rt SL3_ISO_PACKETS F acc hwptr
      td).samples.sum = F ∧
    (sl3_fill_playback_urb rate true rt SL3_ISO_PACKETS F acc hwptr
      td).sample_accumulator = acc ∧
    (sl3_fill_playback_urb rate true rt SL3_ISO_PACKETS F acc hwptr
      td).feedback_left = 0 :=
  sl3_feedback_fill_inv rate rt SL3_ISO_PACKETS
    (by norm_num [SL3_ISO_PACKETS]) F acc hwptr td
    (by simpa [SL3_ISO_PACKETS] using hlo)
    (by simp only [SL3_ISO_PACKETS]; omega)

/-- Witness for C4: the spec's own example `F = 50` with accumulator
12345: the 8 packets sum to exactly 50 and the accumulator is
untouched. -/
theorem sl3_feedback_distribution_witness :
    (sl3_fill_playback_urb 44100 true none SL3_ISO_PACKETS 50 12345 0
      0).samples.sum = 50 ∧
    (sl3_fill_playback_urb 44100 true none SL3_ISO_PACKETS 50 12345 0
      0).sample_accumulator = 12345 :=
  ⟨(sl3_feedback_distribution 44100 none 50 12345 0 0 (by norm_num)
      (by norm_num)).1,
   (sl3_feedback_distribution 44100 none 50 12345 0 0 (by norm_num)
      (by norm_num)).2.1⟩

/-- Fill loop without an attached runtime: `hwptr` and `transfer_done`
do not move and every packet is all zeros. -/
theorem sl3_fill_none_inv (rate : Nat) (c : Bool) :
    ∀ rem fb acc hwptr td,
    (sl3_fill_playback_urb rate c none rem fb acc hwptr td).hwptr
      = hwptr ∧
    (sl3_fill_playback_urb rate c none rem fb acc hwptr td).transfer_done
      = td ∧
    (sl3_fill_playback_urb rate c none rem fb acc hwptr td).packets =
      (sl3_fill_playback_urb rate c none rem fb acc hwptr td).samples.map
        (fun s => List.replicate (s * SL3_BYTES_PER_FRAME) 0) := by
  intro rem
  induction rem with
  | zero =>
    intro fb acc hwptr td
    simp [sl3_fill_playback_urb]
  | succ n ih =>
    intro fb acc hwptr td
    obtain ⟨i1, i2, i3⟩ := ih (sl3_packet_take rate c (n + 1) fb acc).2.2
      (sl3_packet_take rate c (n + 1) fb acc).2.1 hwptr td
    simp only [sl3_fill_playback_urb, List.map_cons]
    exact ⟨i1, i2, by rw [i3]⟩

/-- Fill loop with an attached runtime: `hwptr` and `transfer_done`
advance by the total frame count of the filled packets. -/
theorem sl3_fill_some_inv (rate : Nat) (c : Bool) (r : Runtime) :
    ∀ rem fb acc hwptr td,
    (sl3_fill_playback_urb rate c (some r) rem fb acc hwptr td).hwptr =
      hwptr +
      (sl3_fill_playback_urb rate c (some r) rem fb acc hwptr
        td).samples.sum ∧
    (sl3_fill_playback_urb rate c (some r) rem fb acc hwptr
      td).transfer_done =
      td +
      (sl3_fill_playback_urb rate c (some r) rem fb acc hwptr
        td).samples.sum := by
  intro rem
  induction rem with
  | zero =>
    intro fb acc hwptr td
    simp [sl3_fill_playback_urb]
  | succ n ih =>
    intro fb acc hwptr td
    obtain ⟨i1, i2⟩ := ih (sl3_packet_take rate c (n + 1) fb acc).2.2
      (sl3_packet_take rate c (n + 1) fb acc).2.1
      (hwptr + (sl3_packet_take rate c (n + 1) fb acc).1)
      (td + (sl3_packet_take rate c (n + 1) fb acc).1)
    simp only [sl3_fill_playback_urb, List.sum_cons]
    constructor
    · rw [i1]; ring
    · rw [i2]; ring

/-- Claim C10: with no attached PCM runtime, the playback fill writes
zeros into every packet and leaves `hwptr` and `transfer_done`
unchanged; with a runtime (DMA area) attached, both advance by the
URB's total packet sample count. -/
theorem sl3_fill_runtime_frame_effect (rate : Nat) (c : Bool)
    (rem fb acc hwptr td : Nat) (r : Runtime) :
    ((sl3_fill_playback_urb rate c none rem fb acc hwptr td).hwptr
        = hwptr ∧
     (sl3_fill_playback_urb rate c none rem fb acc hwptr
        td).transfer_done = td ∧
     (sl3_fill_playback_urb rate c none rem fb acc hwptr td).packets =
       (sl3_fill_playback_urb rate c none rem fb acc hwptr
         td).samples.map
         (fun s => List.replicate (s * SL3_BYTES_PER_FRAME) 0)) ∧
    ((sl3_fill_playback_urb rate c (some r) rem fb acc hwptr td).hwptr =
       hwptr + (sl3_fill_playback_urb rate c (some r) rem fb acc hwptr
         td).samples.sum ∧
     (sl3_fill_playback_urb rate c (some r) rem fb acc hwptr
        td).transfer_done =
       td + (sl3_fill_playback_urb rate c (some r) rem fb acc hwptr
         td).samples.sum) :=
  ⟨sl3_fill_none_inv rate c rem fb acc hwptr td,
   sl3_fill_some_inv rate c r rem fb acc hwptr td⟩

/-! ## Stream lifecycle: stop and completion (sl3_urb.c, sl3_pcm.c) -/

/-- Per-stream state visible to the stop/completion paths: the
`running` flag, one in-flight bit per URB of the 16-URB ring, and the
fields a completion mutates (`hwptr`, `transfer_done`, the per-stream
completed counter). -/
structure StreamModel where
  running : Bool
  inflight : List Bool
  hwptr : Nat
  transfer_done : Nat
  urbs_completed : Nat
deriving DecidableEq

/-- Function `sl3_urb_stop` (sl3_urb.c): early-return when not running; otherwise
clear `running` and `usb_kill_urb` every URB of the ring, which
synchronously takes each one out of flight. -/
def sl3_urb_stop (s : StreamModel) : StreamModel :=
  if s.running = false then s
  else { s with running := false,
                inflight := s.inflight.map (fun _ => false) }

/-- The `SNDRV_PCM_TRIGGER_STOP` branch of `sl3_pcm_trigger`
(sl3_pcm.c): it only clears `running` — the trigger runs in atomic
context and cannot call the blocking `usb_kill_urb` — leaving the
in-flight URBs untouched. -/
def sl3_pcm_trigger_stop (s : StreamModel) : StreamModel :=
  { s with running := false }

/-- The OK-status path of `sl3_playback_complete` / the structurally
identical `sl3_capture_complete` (sl3_urb.c) for URB `i`: the URB
leaves flight; if `running` is false or the device is disconnected the
callback returns before touching `hwptr`, `transfer_done` or the
completed counter and does not resubmit; otherwise the fill/intake walk
advances `adv` frames, the period loop with period `ps` runs, the
counter is bumped and the URB is resubmitted. -/
def sl3_stream_complete (disconnected : Bool) (i adv ps : Nat)
    (s : StreamModel) : StreamModel :=
  let s1 := { s with inflight := s.inflight.set i false }
  if s1.running = false ∨ disconnected = true then s1
  else
    { s1 with
      urbs_completed := s1.urbs_completed + 1,
      hwptr := s1.hwptr + adv,
      transfer_done := (sl3_period_loop ps (s1.transfer_done + adv)).1,
      inflight := s1.inflight.set i true }

/-- A playback stream mid-streaming: running with all 16 URBs in
flight. -/
def sl3_streaming_state : StreamModel :=
  ⟨true, List.replicate SL3_NUM_URBS true, 0, 0, 0⟩

/-- Claim C1 counterexample: a stop requested through the host PCM
trigger returns with `running = false` while every URB of the stream is
still in flight — the trigger path never calls `usb_kill_urb`, so the
stream is not drained when the stop operation returns. -/
theorem sl3_trigger_stop_not_drained :
    (sl3_pcm_trigger_stop sl3_streaming_state).running = false ∧
    (sl3_pcm_trigger_stop sl3_streaming_state).inflight.any
      (fun b => b) = true := by
  decide

/-- Claim C1 (amended): `sl3_urb_stop` on a running stream returns with
`running = false` and no URB in flight (the kill loop drains each one
synchronously); and once `running = false` — whether after
`sl3_urb_stop` or after the PCM trigger's stop, which leaves URBs in
flight — a completion callback leaves `hwptr`, `transfer_done` and the
completed counter unchanged and does not resubmit, so its URB simply
falls out of flight. -/
theorem sl3_stop_drains (s t : StreamModel) (d : Bool) (i adv ps : Nat)
    (hrun : s.running = true) (hstop : t.running = false) :
    (sl3_urb_stop s).running = false ∧
    (sl3_urb_stop s).inflight.all (fun b => !b) = true ∧
    (sl3_stream_complete d i adv ps t).hwptr = t.hwptr ∧
    (sl3_stream_complete d i adv ps t).transfer_done = t.transfer_done ∧
    (sl3_stream_complete d i adv ps t).urbs_completed
      = t.urbs_completed ∧
    (sl3_stream_complete d i adv ps t).running = false ∧
    (sl3_stream_complete d i adv ps t).inflight
      = t.inflight.set i false := by
  have hs : ¬ (s.running = false) := by simp [hrun]
  have hcomp : sl3_stream_complete d i adv ps t =
      { t with inflight := t.inflight.set i false } := by
    rw [sl3_stream_complete]
    rw [if_pos (Or.inl hstop)]
  refine ⟨?_, ?_, ?_, ?_, ?_, ?_, ?_⟩
  · rw [sl3_urb_stop, if_neg hs]
  · rw [sl3_urb_stop, if_neg hs]
    simp [List.all_eq_true]
  · rw [hcomp]
  · rw [hcomp]
  · rw [hcomp]
  · rw [hcomp]; exact hstop
  · rw [hcomp]

/-- Witness for C1: instantiating the amended claim at the concrete
streaming state and at the same state after a trigger stop. -/
theorem sl3_stop_drains_witness :
    (sl3_urb_stop sl3_streaming_state).inflight.all (fun b => !b)
      = true ∧
    (sl3_stream_complete false 0 48 441
      (sl3_pcm_trigger_stop sl3_streaming_state)).hwptr =
      (sl3_pcm_trigger_stop sl3_streaming_state).hwptr :=
  ⟨(sl3_stop_drains sl3_streaming_state
      (sl3_pcm_trigger_stop sl3_streaming_state) false 0 48 441
      (by decide) (by decide)).2.1,
   (sl3_stop_drains sl3_streaming_state
      (sl3_pcm_trigger_stop sl3_streaming_state) false 0 48 441
      (by decide) (by decide)).2.2.1⟩

/-! ## Rate switching (sl3_pcm.c, sl3_hid.c) -/

/-- Error results of the control paths (negated errno in C). -/
inductive CErr
  | ok
  | einval
  | ebusy
  | enodev
  | eio
deriving DecidableEq

/-- Device state touched by the rate-switch sequence. -/
structure RateState where
  current_rate : Nat
  sample_accumulator : Nat
  playback_running : Bool
  capture_running : Bool
  disconnected : Bool
deriving DecidableEq

/-- Function `sl3_hid_set_sample_rate` (sl3_hid.c): reject rates outside
{44100, 48000}; otherwise send the Set-sample-rate command with the
big-endian 2-byte rate payload and update `current_rate` on success.
`hid_ok` stands for the synchronous interrupt-OUT transfer and the
response wait both succeeding; the returned list is the HID traffic
issued (command id, payload). -/
def sl3_hid_set_sample_rate (hid_ok : Bool) (d : RateState) (rate : Nat) :
    CErr × RateState × List (Nat × List Nat) :=
  if rate ≠ 44100 ∧ rate ≠ 48000 then (CErr.einval, d, [])
  else if d.disconnected = true then (CErr.enodev, d, [])
  else
    let payload := [rate / 256 % 256, rate % 256]
    if hid_ok then
      (CErr.ok, { d with current_rate := rate },
       [(SL3_HID_CMD_SAMPLE_RATE, payload)])
    else
      (CErr.eio, d, [(SL3_HID_CMD_SAMPLE_RATE, payload)])

/-- Function `sl3_set_sample_rate` (sl3_pcm.c): the full rate-switch sequence
under the stream-serialization mutex — validate, no-op on equal rate,
refuse busy while a stream runs, send the HID command, then reset the
fractional accumulator. -/
def sl3_set_sample_rate (hid_ok : Bool) (d : RateState) (rate : Nat) :
    CErr × RateState × List (Nat × List Nat) :=
  if rate ≠ 44100 ∧ rate ≠ 48000 then (CErr.einval, d, [])
  else if rate = d.current_rate then (CErr.ok, d, [])
  else if d.playback_running = true ∨ d.capture_running = true then
    (CErr.ebusy, d, [])
  else
    match sl3_hid_set_sample_rate hid_ok d rate with
    | (CErr.ok, d1, tr) =>
      (CErr.ok, { d1 with sample_accumulator := 0 }, tr)
    | (e, d1, tr) => (e, d1, tr)

/-- Claim C5: a rate change to a different valid rate while either
stream runs returns busy with the device state (in particular
`current_rate` and the accumulator) unchanged and no HID traffic; a
request equal to the current rate returns success with no traffic and
no state change; a rate outside {44100, 48000} is rejected with an
invalid-argument error before any state change or traffic. -/
theorem sl3_rate_change_guards (hid_ok : Bool) (d : RateState)
    (rate : Nat) :
    ((rate = 44100 ∨ rate = 48000) → rate ≠ d.current_rate →
      (d.playback_running = true ∨ d.capture_running = true) →
      sl3_set_sample_rate hid_ok d rate = (CErr.ebusy, d, [])) ∧
    (rate = d.current_rate → (rate = 44100 ∨ rate = 48000) →
      sl3_set_sample_rate hid_ok d rate = (CErr.ok, d, [])) ∧
    (¬(rate = 44100 ∨ rate = 48000) →
      sl3_set_sample_rate hid_ok d rate = (CErr.einval, d, [])) := by
  refine ⟨?_, ?_, ?_⟩
  · intro hv hne hrun
    rw [sl3_set_sample_rate, if_neg (by tauto), if_neg hne, if_pos hrun]
  · intro heq hv
    rw [sl3_set_sample_rate, if_neg (by tauto), if_pos heq]
  · intro hv
    rw [sl3_set_sample_rate, if_pos (by tauto)]

/-- Witness for C5: playback running at 48000, requesting 44100 is
busy and leaves the state untouched; requesting 48000 again succeeds
silently; requesting 96000 is invalid. -/
theorem sl3_rate_change_guards_witness :
    sl3_set_sample_rate true ⟨48000, 123, true, false, false⟩ 44100
      = (CErr.ebusy, ⟨48000, 123, true, false, false⟩, []) ∧
    sl3_set_sample_rate true ⟨48000, 123, true, false, false⟩ 48000
      = (CErr.ok, ⟨48000, 123, true, false, false⟩, []) ∧
    sl3_set_sample_rate true ⟨48000, 123, true, false, false⟩ 96000
      = (CErr.einval, ⟨48000, 123, true, false, false⟩, []) :=
  ⟨(sl3_rate_change_guards true ⟨48000, 123, true, false, false⟩
      44100).1 (by norm_num) (by norm_num) (Or.inl rfl),
   (sl3_rate_change_guards true ⟨48000, 123, true, false, false⟩
      48000).2.1 rfl (by norm_num),
   (sl3_rate_change_guards true ⟨48000, 123, true, false, false⟩
      96000).2.2 (by norm_num)⟩

/-! ## Probe default configuration (sl3_driver.c) -/

/-- The configuration fields `sl3_probe` installs before HID init. -/
structure ProbeConfig where
  current_rate : Nat
  routing : List Nat
deriving DecidableEq

/-- The "Set default configuration" step of `sl3_probe` (sl3_driver.c):
`current_rate` is assigned the `default_sample_rate` module parameter
verbatim (a C `int` stored into an `unsigned int`, i.e. reduced modulo
2^32) and all three routing entries are set to `SL3_ROUTE_USB`.  The
parameter is never validated anywhere in the driver. -/
def sl3_probe_defaults (default_sample_rate : Int) : ProbeConfig :=
  { current_rate := (default_sample_rate % 4294967296).toNat,
    routing := [SL3_ROUTE_USB, SL3_ROUTE_USB, SL3_ROUTE_USB] }

/-- Claim C6 counterexample: loading the module with
`default_sample_rate = 96000` makes probe install
`current_rate = 96000`, which is neither 44100 nor 48000 — the
parameter is stored without validation. -/
theorem sl3_probe_rate_unvalidated :
    (sl3_probe_defaults 96000).current_rate = 96000 ∧
    ¬((sl3_probe_defaults 96000).current_rate = 44100 ∨
      (sl3_probe_defaults 96000).current_rate = 48000) := by
  decide

/-- Claim C6 (amended): probe always installs
`routing = [USB, USB, USB]`, and stores the `default_sample_rate`
parameter into `current_rate` verbatim — so `current_rate` lies in
{44100, 48000} exactly when the parameter does (its compiled-in default
is 48000); out-of-range parameter values are not rejected. -/
theorem sl3_probe_defaults_spec (p : Int) :
    (sl3_probe_defaults p).routing
      = [SL3_ROUTE_USB, SL3_ROUTE_USB, SL3_ROUTE_USB] ∧
    ((p = 44100 ∨ p = 48000) →
      ((sl3_probe_defaults p).current_rate = 44100 ∨
       (sl3_probe_defaults p).current_rate = 48000)) := by
  refine ⟨rfl, ?_⟩
  rintro (h | h) <;> subst h
  · left; decide
  · right; decide

/-- Witness for C6: at the compiled-in default 48000, probe installs
rate 48000 and USB routing everywhere. -/
theorem sl3_probe_defaults_witness :
    (sl3_probe_defaults 48000).routing
      = [SL3_ROUTE_USB, SL3_ROUTE_USB, SL3_ROUTE_USB] ∧
    ((sl3_probe_defaults 48000).current_rate = 44100 ∨
     (sl3_probe_defaults 48000).current_rate = 48000) :=
  ⟨(sl3_probe_defaults_spec 48000).1,
   (sl3_probe_defaults_spec 48000).2 (Or.inr rfl)⟩

/-! ## Routing control (sl3_control.c, sl3_hid.c) -/

/-- Result of an ALSA control put handler: 1 = value changed,
0 = unchanged, negative errno otherwise. -/
inductive PutResult
  | changed
  | unchanged
  | failed (e : CErr)
deriving DecidableEq

/-- Device state touched by a routing write. -/
structure RouteState where
  routing : List Nat
  disconnected : Bool
deriving DecidableEq

/-- Function `sl3_hid_set_routing` (sl3_hid.c): fire-and-forget Set-routing
command with payload `{pair, 0x01, mode}`; no response wait.  `hid_ok`
stands for the synchronous interrupt-OUT transfer succeeding. -/
def sl3_hid_set_routing (hid_ok : Bool) (disconnected : Bool)
    (pair mode : Nat) : CErr × List (Nat × List Nat) :=
  if disconnected = true then (CErr.enodev, [])
  else if hid_ok then
    (CErr.ok, [(SL3_HID_CMD_ROUTING, [pair, 0x01, mode])])
  else
    (CErr.eio, [(SL3_HID_CMD_ROUTING, [pair, 0x01, mode])])

/-- Function `sl3_route_put` (sl3_control.c) for deck `idx` ∈ {0,1,2}: refuse
values above 1, return "unchanged" without traffic when the value
equals the cached one, otherwise send Set-routing for the deck's pair
id and update the cache only on success. -/
def sl3_route_put (hid_ok : Bool) (s : RouteState) (idx val : Nat) :
    PutResult × RouteState × List (Nat × List Nat) :=
  let pair_ids := [SL3_PAIR_DECK_A, SL3_PAIR_DECK_B, SL3_PAIR_DECK_C]
  if 1 < val then (PutResult.failed CErr.einval, s, [])
  else if val = s.routing.getD idx 0 then (PutResult.unchanged, s, [])
  else
    match sl3_hid_set_routing hid_ok s.disconnected
        (pair_ids.getD idx 0) val with
    | (CErr.ok, tr) =>
      (PutResult.changed, { s with routing := s.routing.set idx val }, tr)
    | (e, tr) => (PutResult.failed e, s, tr)

/-- Claim C9: a routing write with value > 1 fails with invalid
argument; a write equal to the cache returns "unchanged" with no USB
traffic; a different valid value sends exactly one Set-routing command
`{pair_id, 0x01, mode}` (pair ids 0x08/0x0E/0x14 for decks 0/1/2),
updates the cache and returns "changed"; if the send fails the cache is
unchanged. -/
theorem sl3_route_put_spec (hid_ok : Bool) (s : RouteState)
    (idx val : Nat) :
    (1 < val →
      sl3_route_put hid_ok s idx val
        = (PutResult.failed CErr.einval, s, [])) ∧
    (val ≤ 1 → val = s.routing.getD idx 0 →
      sl3_route_put hid_ok s idx val = (PutResult.unchanged, s, [])) ∧
    (val ≤ 1 → val ≠ s.routing.getD idx 0 → s.disconnected = false →
      hid_ok = true →
      sl3_route_put hid_ok s idx val =
        (PutResult.changed, { s with routing := s.routing.set idx val },
         [(SL3_HID_CMD_ROUTING,
           [[SL3_PAIR_DECK_A, SL3_PAIR_DECK_B,
             SL3_PAIR_DECK_C].getD idx 0, 0x01, val])])) ∧
    (val ≤ 1 → val ≠ s.routing.getD idx 0 → s.disconnected = false →
      hid_ok = false →
      sl3_route_put hid_ok s idx val =
        (PutResult.failed CErr.eio, s,
         [(SL3_HID_CMD_ROUTING,
           [[SL3_PAIR_DECK_A, SL3_PAIR_DECK_B,
             SL3_PAIR_DECK_C].getD idx 0, 0x01, val])])) := by
  refine ⟨?_, ?_, ?_, ?_⟩
  · intro hgt
    simp only [sl3_route_put]
    rw [if_pos hgt]
  · intro hle heq
    simp only [sl3_route_put]
    rw [if_neg (by omega), if_pos heq]
  · intro hle hne hd hok
    subst hok
    simp only [sl3_route_put, sl3_hid_set_routing]
    rw [if_neg (by omega), if_neg hne, if_neg (by simp [hd]),
      if_pos trivial]
  · intro hle hne hd hok
    subst hok
    simp only [sl3_route_put, sl3_hid_set_routing]
    rw [if_neg (by omega), if_neg hne, if_neg (by simp [hd]),
      if_neg (by simp)]

/-- Witness for C9, the spec's routing scenario: writing Analog (0) to
Deck B with cache [USB, USB, USB] sends `{0x0E, 0x01, 0x00}`, caches
[USB, Analog, USB] and reports "changed"; repeating it reports
"unchanged" with no traffic; value 2 is invalid. -/
theorem sl3_route_put_witness :
    sl3_route_put true ⟨[1, 1, 1], false⟩ 1 0 =
      (PutResult.changed, ⟨[1, 0, 1], false⟩,
       [(SL3_HID_CMD_ROUTING, [SL3_PAIR_DECK_B, 0x01, 0])]) ∧
    sl3_route_put true ⟨[1, 0, 1], false⟩ 1 0 =
      (PutResult.unchanged, ⟨[1, 0, 1], false⟩, []) ∧
    sl3_route_put true ⟨[1, 1, 1], false⟩ 1 2 =
      (PutResult.failed CErr.einval, ⟨[1, 1, 1], false⟩, []) :=
  ⟨by
    have h := (sl3_route_put_spec true ⟨[1, 1, 1], false⟩ 1 0).2.2.1
      (by norm_num) (by decide) rfl rfl
    simpa using h,
   (sl3_route_put_spec true ⟨[1, 0, 1], false⟩ 1 0).2.1
     (by norm_num) (by decide),
   (sl3_route_put_spec true ⟨[1, 1, 1], false⟩ 1 2).1 (by norm_num)⟩

/-! ## HID report framing (sl3_hid_build_report, sl3_hid.c) -/

/-- Function `sl3_hid_build_report` (sl3_hid.c): `memset` the 64-byte OUT buffer
to zero, write the command byte at 0, the VID/PID header big-endian at
1..4, and `memcpy` at most `SL3_HID_REPORT_SIZE - 5 = 59` payload bytes
to offset 5.  The net result as a byte list. -/
def sl3_hid_build_report (cmd : Nat) (payload : List Nat) : List Nat :=
  let n := min payload.length (SL3_HID_REPORT_SIZE - 5)
  [cmd, SL3_VENDOR_ID / 256 % 256, SL3_VENDOR_ID % 256,
   SL3_PRODUCT_ID / 256 % 256, SL3_PRODUCT_ID % 256]
    ++ payload.take n ++ List.replicate (SL3_HID_REPORT_SIZE - 5 - n) 0

/-- Reading anywhere in a zero-filled region yields zero. -/
theorem sl3_getD_replicate_zero (m k : Nat) :
    (List.replicate m (0 : Nat)).getD k 0 = 0 := by
  induction m generalizing k with
  | zero => rfl
  | succ m ih =>
    cases k with
    | zero => rfl
    | succ k => exact ih k

/-- Claim C8: for every command byte and payload, the built 64-byte
report has byte 0 = cmd, bytes 1..4 = 1C C5 00 01, the payload
(truncated to 59 bytes) at offsets 5.., and every remaining byte 0. -/
theorem sl3_hid_framing (cmd : Nat) (payload : List Nat) (i j : Nat)
    (hi : i < min payload.length 59)
    (hj : 5 + min payload.length 59 ≤ j) (hj64 : j < 64) :
    (sl3_hid_build_report cmd payload).length = 64 ∧
    (sl3_hid_build_report cmd payload).getD 0 0 = cmd ∧
    (sl3_hid_build_report cmd payload).getD 1 0 = 0x1C ∧
    (sl3_hid_build_report cmd payload).getD 2 0 = 0xC5 ∧
    (sl3_hid_build_report cmd payload).getD 3 0 = 0x00 ∧
    (sl3_hid_build_report cmd payload).getD 4 0 = 0x01 ∧
    (sl3_hid_build_report cmd payload).getD (5 + i) 0
      = payload.getD i 0 ∧
    (sl3_hid_build_report cmd payload).getD j 0 = 0 := by
  have h59 : SL3_HID_REPORT_SIZE - 5 = 59 := by
    norm_num [SL3_HID_REPORT_SIZE]
  have hn : min payload.length (SL3_HID_REPORT_SIZE - 5)
      = min payload.length 59 := by rw [h59]
  have htl : (payload.take (min payload.length 59)).length
      = min payload.length 59 := by
    rw [List.length_take]
    omega
  refine ⟨?_, rfl, rfl, rfl, rfl, rfl, ?_, ?_⟩
  · simp only [sl3_hid_build_report, List.length_append,
      List.length_cons, List.length_nil, List.length_replicate, htl, hn,
      SL3_HID_REPORT_SIZE]
    omega
  · show ([cmd, SL3_VENDOR_ID / 256 % 256, SL3_VENDOR_ID % 256,
      SL3_PRODUCT_ID / 256 % 256, SL3_PRODUCT_ID % 256]
        ++ (payload.take (min payload.length (SL3_HID_REPORT_SIZE - 5))
        ++ List.replicate
          (SL3_HID_REPORT_SIZE - 5
            - min payload.length (SL3_HID_REPORT_SIZE - 5)) 0)).getD
        (5 + i) 0 = payload.getD i 0
    rw [hn, List.getD_append_right _ _ _ _ (by simp)]
    simp only [List.length_cons, List.length_nil]
    have h5 : 5 + i - (0 + 1 + 1 + 1 + 1 + 1) = i := by omega
    rw [h5, List.getD_append _ _ _ _ (by rw [htl]; omega)]
    have hip : i < payload.length := by omega
    have hit : i < (payload.take (min payload.length 59)).length := by
      rw [htl]; omega
    rw [List.getD_eq_getElem _ _ hit, List.getD_eq_getElem _ _ hip]
    simp
  · show ([cmd, SL3_VENDOR_ID / 256 % 256, SL3_VENDOR_ID % 256,
      SL3_PRODUCT_ID / 256 % 256, SL3_PRODUCT_ID % 256]
        ++ (payload.take (min payload.length (SL3_HID_REPORT_SIZE - 5))
        ++ List.replicate
          (SL3_HID_REPORT_SIZE - 5
            - min payload.length (SL3_HID_REPORT_SIZE - 5)) 0)).getD
        j 0 = 0
    rw [hn, List.getD_append_right _ _ _ _ (by simp; omega),
      List.getD_append_right _ _ _ _ (by rw [htl]; simp; omega)]
    exact sl3_getD_replicate_zero _ _

/-- Witness for C8: the Set-routing frame for Deck B/Analog — command
0x33, header 1C C5 00 01, payload {0x0E, 0x01, 0x00} at bytes 5..7, and
byte 10 (inside the zero padding) is 0. -/
theorem sl3_hid_framing_witness :
    (sl3_hid_build_report 0x33 [0x0E, 0x01, 0x00]).getD 0 0 = 0x33 ∧
    (sl3_hid_build_report 0x33 [0x0E, 0x01, 0x00]).getD 5 0 = 0x0E ∧
    (sl3_hid_build_report 0x33 [0x0E, 0x01, 0x00]).getD 10 0 = 0 :=
  ⟨(sl3_hid_framing 0x33 [0x0E, 0x01, 0x00] 0 10 (by norm_num)
      (by norm_num) (by norm_num)).2.1,
   (sl3_hid_framing 0x33 [0x0E, 0x01, 0x00] 0 10 (by norm_num)
      (by norm_num) (by norm_num)).2.2.2.2.2.2.1,
   (sl3_hid_framing 0x33 [0x0E, 0x01, 0x00] 0 10 (by norm_num)
      (by norm_num) (by norm_num)).2.2.2.2.2.2.2⟩

/-! ## HID IN completion dispatch (sl3_hid_in_complete, sl3_hid.c) -/

/-- Device state touched by the HID IN completion callback: the three
status caches, the response mailbox with its completion-signal count,
the notification counts of the two controls (modelled as present, as
after a successful probe), the IN-URB resubmission count, and the
disconnected flag. -/
structure HidState where
  overload_status : List Nat
  phono_status : List Nat
  usb_port_status : List Nat
  hid_response_buf : List Nat
  response_signals : Nat
  overload_notifies : Nat
  phono_notifies : Nat
  resubmits : Nat
  disconnected : Bool
deriving DecidableEq

/-- The `resubmit:` tail of `sl3_hid_in_complete`: resubmit the IN URB
unless the device is disconnected. -/
def sl3_hid_in_resubmit (s : HidState) : HidState :=
  if s.disconnected = false then { s with resubmits := s.resubmits + 1 }
  else s

/-- Function `sl3_hid_in_complete` (sl3_hid.c): on URB status 0 and a non-empty
report, dispatch on `data[0]` — overload (0x34, needs length ≥ 11),
phono (0x38, needs ≥ 8), USB-port (0x39, needs ≥ 9), anything else to
the response mailbox with a waiter signal — then resubmit.  Kill
statuses return without resubmitting; device-gone sets `disconnected`;
other errors resubmit after a warning.  `len` is
`urb->actual_length`. -/
def sl3_hid_in_complete (s : HidState) (status : Int) (data : List Nat)
    (len : Nat) : HidState :=
  if status = 0 then
    if len < 1 then sl3_hid_in_resubmit s
    else if data.getD 0 0 = SL3_HID_NOTIFY_OVERLOAD then
      sl3_hid_in_resubmit (if 11 ≤ len then
        { s with overload_status := (data.drop 5).take 6,
                 overload_notifies := s.overload_notifies + 1 }
      else s)
    else if data.getD 0 0 = SL3_HID_NOTIFY_PHONO then
      sl3_hid_in_resubmit (if 8 ≤ len then
        { s with phono_status := (data.drop 5).take 3,
                 phono_notifies := s.phono_notifies + 1 }
      else s)
    else if data.getD 0 0 = SL3_HID_NOTIFY_USB_PORT then
      sl3_hid_in_resubmit (if 9 ≤ len then
        { s with usb_port_status := (data.drop 5).take 4 }
      else s)
    else
      sl3_hid_in_resubmit
        { s with
          hid_response_buf := data.take (min len SL3_HID_REPORT_SIZE),
          response_signals := s.response_signals + 1 }
  else if status = -2 ∨ status = -104 then s
  else if status = -108 then { s with disconnected := true }
  else sl3_hid_in_resubmit s

/-- Claim C7: on an OK-status IN completion, an overload report
(0x34, length ≥ 11) updates only the overload cache from bytes 5..10
and notifies only the Overload Status control; a phono report (0x38,
length ≥ 8) updates only the phono cache from bytes 5..7 and notifies
only the Phono Switch Status control; a USB-port report (0x39, length
≥ 9) updates only that cache from bytes 5..8 with no notification; any
other code fills only the response mailbox and signals the waiter; a
known notification code with a shorter report changes nothing — and in
every case the URB is resubmitted. -/
theorem sl3_hid_in_demux (s : HidState) (data : List Nat) (len : Nat)
    (hd : s.disconnected = false) (h1 : 1 ≤ len) :
    (data.getD 0 0 = SL3_HID_NOTIFY_OVERLOAD → 11 ≤ len →
      sl3_hid_in_complete s 0 data len =
        { s with overload_status := (data.drop 5).take 6,
                 overload_notifies := s.overload_notifies + 1,
                 resubmits := s.resubmits + 1 }) ∧
    (data.getD 0 0 = SL3_HID_NOTIFY_PHONO → 8 ≤ len →
      sl3_hid_in_complete s 0 data len =
        { s with phono_status := (data.drop 5).take 3,
                 phono_notifies := s.phono_notifies + 1,
                 resubmits := s.resubmits + 1 }) ∧
    (data.getD 0 0 = SL3_HID_NOTIFY_USB_PORT → 9 ≤ len →
      sl3_hid_in_complete s 0 data len =
        { s with usb_port_status := (data.drop 5).take 4,
                 resubmits := s.resubmits + 1 }) ∧
    (data.getD 0 0 ≠ SL3_HID_NOTIFY_OVERLOAD →
     data.getD 0 0 ≠ SL3_HID_NOTIFY_PHONO →
     data.getD 0 0 ≠ SL3_HID_NOTIFY_USB_PORT →
      sl3_hid_in_complete s 0 data len =
        { s with
          hid_response_buf := data.take (min len SL3_HID_REPORT_SIZE),
          response_signals := s.response_signals + 1,
          resubmits := s.resubmits + 1 }) ∧
    ((data.getD 0 0 = SL3_HID_NOTIFY_OVERLOAD ∧ len < 11) ∨
     (data.getD 0 0 = SL3_HID_NOTIFY_PHONO ∧ len < 8) ∨
     (data.getD 0 0 = SL3_HID_NOTIFY_USB_PORT ∧ len < 9) →
      sl3_hid_in_complete s 0 data len =
        { s with resubmits := s.resubmits + 1 }) := by
  have hne : ¬ (len < 1) := by omega
  refine ⟨?_, ?_, ?_, ?_, ?_⟩
  · intro hb hl
    rw [sl3_hid_in_complete, if_pos rfl, if_neg hne, if_pos hb,
      if_pos hl]
    simp [sl3_hid_in_resubmit, hd]
  · intro hb hl
    have hb1 : data.getD 0 0 ≠ SL3_HID_NOTIFY_OVERLOAD := by
      rw [hb]; decide
    rw [sl3_hid_in_complete, if_pos rfl, if_neg hne, if_neg hb1,
      if_pos hb, if_pos hl]
    simp [sl3_hid_in_resubmit, hd]
  · intro hb hl
    have hb1 : data.getD 0 0 ≠ SL3_HID_NOTIFY_OVERLOAD := by
      rw [hb]; decide
    have hb2 : data.getD 0 0 ≠ SL3_HID_NOTIFY_PHONO := by
      rw [hb]; decide
    rw [sl3_hid_in_complete, if_pos rfl, if_neg hne, if_neg hb1,
      if_neg hb2, if_pos hb, if_pos hl]
    simp [sl3_hid_in_resubmit, hd]
  · intro hb1 hb2 hb3
    rw [sl3_hid_in_complete, if_pos rfl, if_neg hne, if_neg hb1,
      if_neg hb2, if_neg hb3]
    simp [sl3_hid_in_resubmit, hd]
  · rintro (⟨hb, hl⟩ | ⟨hb, hl⟩ | ⟨hb, hl⟩)
    · rw [sl3_hid_in_complete, if_pos rfl, if_neg hne, if_pos hb,
        if_neg (by omega)]
      simp [sl3_hid_in_resubmit, hd]
    · have hb1 : data.getD 0 0 ≠ SL3_HID_NOTIFY_OVERLOAD := by
        rw [hb]; decide
      rw [sl3_hid_in_complete, if_pos rfl, if_neg hne, if_neg hb1,
        if_pos hb, if_neg (by omega)]
      simp [sl3_hid_in_resubmit, hd]
    · have hb1 : data.getD 0 0 ≠ SL3_HID_NOTIFY_OVERLOAD := by
        rw [hb]; decide
      have hb2 : data.getD 0 0 ≠ SL3_HID_NOTIFY_PHONO := by
        rw [hb]; decide
      rw [sl3_hid_in_complete, if_pos rfl, if_neg hne, if_neg hb1,
        if_neg hb2, if_pos hb, if_neg (by omega)]
      simp [sl3_hid_in_resubmit, hd]

/-- Witness for C7: an overload notification `0x34` of length 11 whose
payload bytes 5..10 are 1,0,1,0,0,1 updates the overload cache and
notifies once; an unknown code `0x77` fills the mailbox. -/
theorem sl3_hid_in_demux_witness :
    sl3_hid_in_complete ⟨[0, 0, 0, 0, 0, 0], [0, 0, 0], [0, 0, 0, 0],
        [], 0, 0, 0, 0, false⟩ 0
        [0x34, 0x1C, 0xC5, 0x00, 0x01, 1, 0, 1, 0, 0, 1] 11 =
      ⟨[1, 0, 1, 0, 0, 1], [0, 0, 0], [0, 0, 0, 0], [], 0, 1, 0, 1,
        false⟩ ∧
    sl3_hid_in_complete ⟨[0, 0, 0, 0, 0, 0], [0, 0, 0], [0, 0, 0, 0],
        [], 0, 0, 0, 0, false⟩ 0 [0x77, 0xAA] 2 =
      ⟨[0, 0, 0, 0, 0, 0], [0, 0, 0], [0, 0, 0, 0], [0x77, 0xAA], 1, 0,
        0, 1, false⟩ := by
  constructor
  · have h := (sl3_hid_in_demux ⟨[0, 0, 0, 0, 0, 0], [0, 0, 0],
      [0, 0, 0, 0], [], 0, 0, 0, 0, false⟩
      [0x34, 0x1C, 0xC5, 0x00, 0x01, 1, 0, 1, 0, 0, 1] 11 rfl
      (by norm_num)).1 (by decide) (by norm_num)
    exact h.trans (by decide)
  · have h := (sl3_hid_in_demux ⟨[0, 0, 0, 0, 0, 0], [0, 0, 0],
      [0, 0, 0, 0], [], 0, 0, 0, 0, false⟩ [0x77, 0xAA] 2 rfl
      (by norm_num)).2.2.2.1 (by decide) (by decide) (by decide)
    exact h.trans (by decide)

end SL3
